import Mathlib

/-!
Verification of the Tailscale exit-node auto-deployment manager
(`digital_ocean/auto-deploy.py`).

The Python program is shallowly embedded: pure fragments become Lean
functions, the effectful parts (HTTP probes, DigitalOcean API calls,
destroy outcomes, the wall clock) become explicit environment records,
and raised exceptions become `Option`/`Except` results.  Machine
integers in the source are Python `int`s (arbitrary precision), so they
are embedded as `Nat`/`Int` with no wrap-around.
-/

namespace AutoDeploy

/-! ## Timestamps (`datetime` with `isoformat`/`fromisoformat`)

`ExitNodeInfo` stores `created_at`/`last_checked` as `datetime` values;
the program only ever constructs them with `datetime.now(timezone.utc)`
(UTC-aware) or by parsing the state file.  A timestamp is embedded by
its calendar fields plus a flag recording whether it is UTC-aware
(`tzUtc = true` prints the `+00:00` suffix; `false` is a naive
datetime).  Offsets other than `+00:00` never arise in this program and
are not modelled. -/

structure Timestamp where
  year : Nat
  month : Nat
  day : Nat
  hour : Nat
  minute : Nat
  second : Nat
  microsecond : Nat
  tzUtc : Bool
deriving DecidableEq, Repr

/-- The digit character for `d < 10` (codepoint 48 is `0`). -/
def digitChar (d : Nat) : Char := Char.ofNat (48 + d)

/-- Is `c` an ASCII digit? -/
def isDigitChar (c : Char) : Bool := 48 ≤ c.toNat && c.toNat ≤ 57

/-- Numeric value of an ASCII digit character. -/
def digitVal (c : Char) : Nat := c.toNat - 48

/-- Two-digit zero-padded rendering (`%02d`). -/
def pad2 (n : Nat) : List Char := [digitChar (n / 10), digitChar (n % 10)]

/-- Four-digit zero-padded rendering (`%04d`). -/
def pad4 (n : Nat) : List Char :=
  [digitChar (n / 1000), digitChar (n / 100 % 10), digitChar (n / 10 % 10), digitChar (n % 10)]

/-- Six-digit zero-padded rendering (`%06d`), used for microseconds. -/
def pad6 (n : Nat) : List Char :=
  [digitChar (n / 100000), digitChar (n / 10000 % 10), digitChar (n / 1000 % 10),
   digitChar (n / 100 % 10), digitChar (n / 10 % 10), digitChar (n % 10)]

/-- Read exactly two digit characters, returning the value and the tail. -/
def read2 : List Char → Option (Nat × List Char)
  | c1 :: c2 :: rest =>
    if isDigitChar c1 && isDigitChar c2 then
      some (digitVal c1 * 10 + digitVal c2, rest)
    else none
  | _ => none

/-- Read exactly four digit characters, returning the value and the tail. -/
def read4 : List Char → Option (Nat × List Char)
  | c1 :: c2 :: c3 :: c4 :: rest =>
    if isDigitChar c1 && isDigitChar c2 && isDigitChar c3 && isDigitChar c4 then
      some (digitVal c1 * 1000 + digitVal c2 * 100 + digitVal c3 * 10 + digitVal c4, rest)
    else none
  | _ => none

/-- Read exactly six digit characters, returning the value and the tail. -/
def read6 : List Char → Option (Nat × List Char)
  | c1 :: c2 :: c3 :: c4 :: c5 :: c6 :: rest =>
    if isDigitChar c1 && isDigitChar c2 && isDigitChar c3 &&
       isDigitChar c4 && isDigitChar c5 && isDigitChar c6 then
      some (digitVal c1 * 100000 + digitVal c2 * 10000 + digitVal c3 * 1000 +
            digitVal c4 * 100 + digitVal c5 * 10 + digitVal c6, rest)
    else none
  | _ => none

/-- Require the next character to be `c`. -/
def expectChar (c : Char) : List Char → Option (List Char)
  | c2 :: rest => if c2 = c then some rest else none
  | _ => none

/-- `datetime.isoformat()`: `YYYY-MM-DDTHH:MM:SS`, followed by
`.ffffff` exactly when `microsecond ≠ 0`, followed by `+00:00` exactly
when the value is UTC-aware. -/
def Timestamp.isoformat (t : Timestamp) : String :=
  String.mk (pad4 t.year ++ '-' :: pad2 t.month ++ '-' :: pad2 t.day ++
    'T' :: pad2 t.hour ++ ':' :: pad2 t.minute ++ ':' :: pad2 t.second ++
    (if t.microsecond = 0 then [] else '.' :: pad6 t.microsecond) ++
    (if t.tzUtc then '+' :: pad2 0 ++ ':' :: pad2 0 else []))

/-- Optional `.ffffff` fractional part; absent means zero microseconds. -/
def readFrac : List Char → Option (Nat × List Char)
  | c :: rest => if c = '.' then read6 rest else some (0, c :: rest)
  | [] => some (0, [])

/-- Optional `+00:00` offset; absent means a naive datetime. -/
def readOffset : List Char → Option (Bool × List Char)
  | c :: rest =>
    if c = '+' then
      match read2 rest with
      | none => none
      | some (h, r1) =>
        match expectChar ':' r1 with
        | none => none
        | some r2 =>
          match read2 r2 with
          | none => none
          | some (m, r3) => if h = 0 && m = 0 then some (true, r3) else none
    else none
  | [] => some (false, [])

/-- `datetime.fromisoformat`: positional parse of the format printed by
`Timestamp.isoformat`.  Returns `none` where the Python call raises
`ValueError`. -/
def Timestamp.fromisoformat (str : String) : Option Timestamp := do
  let r0 := str.data
  let (y, r1) ← read4 r0
  let r2 ← expectChar '-' r1
  let (mo, r3) ← read2 r2
  let r4 ← expectChar '-' r3
  let (d, r5) ← read2 r4
  let r6 ← expectChar 'T' r5
  let (h, r7) ← read2 r6
  let r8 ← expectChar ':' r7
  let (mi, r9) ← read2 r8
  let r10 ← expectChar ':' r9
  let (s, r11) ← read2 r10
  let (us, r12) ← readFrac r11
  let (tz, r13) ← readOffset r12
  if r13 = [] then some ⟨y, mo, d, h, mi, s, us, tz⟩ else none

/-- Field bounds maintained by Python's `datetime` constructor. -/
def Timestamp.valid (t : Timestamp) : Prop :=
  t.year ≤ 9999 ∧ 1 ≤ t.month ∧ t.month ≤ 12 ∧ 1 ≤ t.day ∧ t.day ≤ 31 ∧
  t.hour < 24 ∧ t.minute < 60 ∧ t.second < 60 ∧ t.microsecond < 1000000

instance (t : Timestamp) : Decidable t.valid := by
  unfold Timestamp.valid; infer_instance

lemma digitChar_spec (d : Nat) (h : d < 10) :
    isDigitChar (digitChar d) = true ∧ digitVal (digitChar d) = d := by
  interval_cases d <;> exact ⟨by decide, by decide⟩

lemma read2_pad2 (n : Nat) (h : n < 100) (rest : List Char) :
    read2 (pad2 n ++ rest) = some (n, rest) := by
  have h1 := digitChar_spec (n / 10) (by omega)
  have h2 := digitChar_spec (n % 10) (by omega)
  simp [pad2, read2, h1.1, h2.1, h1.2, h2.2]
  omega

lemma read4_pad4 (n : Nat) (h : n < 10000) (rest : List Char) :
    read4 (pad4 n ++ rest) = some (n, rest) := by
  have h1 := digitChar_spec (n / 1000) (by omega)
  have h2 := digitChar_spec (n / 100 % 10) (by omega)
  have h3 := digitChar_spec (n / 10 % 10) (by omega)
  have h4 := digitChar_spec (n % 10) (by omega)
  simp [pad4, read4, h1.1, h2.1, h3.1, h4.1, h1.2, h2.2, h3.2, h4.2]
  omega

lemma read6_pad6 (n : Nat) (h : n < 1000000) (rest : List Char) :
    read6 (pad6 n ++ rest) = some (n, rest) := by
  have h1 := digitChar_spec (n / 100000) (by omega)
  have h2 := digitChar_spec (n / 10000 % 10) (by omega)
  have h3 := digitChar_spec (n / 1000 % 10) (by omega)
  have h4 := digitChar_spec (n / 100 % 10) (by omega)
  have h5 := digitChar_spec (n / 10 % 10) (by omega)
  have h6 := digitChar_spec (n % 10) (by omega)
  simp [pad6, read6, h1.1, h2.1, h3.1, h4.1, h5.1, h6.1,
        h1.2, h2.2, h3.2, h4.2, h5.2, h6.2]
  omega

lemma expectChar_cons (c : Char) (rest : List Char) :
    expectChar c (c :: rest) = some rest := by
  simp [expectChar]

lemma readFrac_pad6 (n : Nat) (h : n < 1000000) (rest : List Char) :
    readFrac ('.' :: (pad6 n ++ rest)) = some (n, rest) := by
  simp [readFrac, read6_pad6 n h]

lemma readFrac_utcTail :
    readFrac ('+' :: (pad2 0 ++ ':' :: pad2 0)) =
      some (0, '+' :: (pad2 0 ++ ':' :: pad2 0)) := rfl

lemma readOffset_utcTail : readOffset ('+' :: (pad2 0 ++ ':' :: pad2 0)) = some (true, []) := rfl

lemma readFrac_pad6_nil (n : Nat) (h : n < 1000000) :
    readFrac ('.' :: pad6 n) = some (n, []) := by
  have := readFrac_pad6 n h []
  simpa using this

set_option maxHeartbeats 1600000 in
/-- Printing a valid timestamp and parsing it back is the identity:
the state-file timestamp encoding is lossless to full microsecond
precision. -/
theorem fromisoformat_isoformat (t : Timestamp) (h : t.valid) :
    Timestamp.fromisoformat t.isoformat = some t := by
  obtain ⟨y, mo, d, hr, mi, s, us, tz⟩ := t
  obtain ⟨hy, hmo1, hmo2, hd1, hd2, hh, hmi, hs, hus⟩ := h
  simp only [Timestamp.valid] at *
  unfold Timestamp.isoformat Timestamp.fromisoformat
  simp only [List.append_assoc, List.cons_append]
  rw [read4_pad4 y (by omega)]
  simp only [Option.bind_eq_bind, Option.some_bind]
  rw [expectChar_cons]
  simp only [Option.some_bind]
  rw [read2_pad2 mo (by omega)]
  simp only [Option.some_bind]
  rw [expectChar_cons]
  simp only [Option.some_bind]
  rw [read2_pad2 d (by omega)]
  simp only [Option.some_bind]
  rw [expectChar_cons]
  simp only [Option.some_bind]
  rw [read2_pad2 hr (by omega)]
  simp only [Option.some_bind]
  rw [expectChar_cons]
  simp only [Option.some_bind]
  rw [read2_pad2 mi (by omega)]
  simp only [Option.some_bind]
  rw [expectChar_cons]
  simp only [Option.some_bind]
  rw [read2_pad2 s (by omega)]
  simp only [Option.some_bind]
  by_cases hus0 : us = 0
  · subst hus0
    cases tz
    · simp [readFrac, readOffset]
    · rw [show (if (0 : Nat) = 0 then ([] : List Char) else '.' :: pad6 0) = [] from rfl]
      simp only [List.nil_append, if_true, eq_self_iff_true]
      rw [readFrac_utcTail]
      simp only [Option.some_bind]
      rw [readOffset_utcTail]
      simp
  · simp only [if_neg hus0]
    cases tz
    · simp only [Bool.false_eq_true, if_false, List.append_nil]
      rw [readFrac_pad6_nil us (by omega)]
      simp [readOffset]
    · simp only [if_true, eq_self_iff_true]
      simp only [List.cons_append, List.append_assoc]
      rw [readFrac_pad6 us (by omega)]
      simp only [Option.some_bind]
      rw [readOffset_utcTail]
      simp

/-! ## `ExitNodeInfo` and the durable state file

`ExitNodeInfo.to_dict`/`from_dict` serialize one tracked instance to the
JSON object `{droplet_id, name, public_ip, tailscale_ip, region,
status, created_at, last_checked}`; a JSON object is embedded as an
association list of string keys to string values (every field of the
record is a string or an ISO-formatted datetime).  `from_dict` returns
`none` where the Python classmethod raises (`KeyError` on a missing
key, `ValueError` from `fromisoformat`). -/

structure ExitNodeInfo where
  droplet_id : String
  name : String
  public_ip : String
  tailscale_ip : String
  region : String
  status : String
  created_at : Timestamp
  last_checked : Timestamp
deriving DecidableEq, Repr

/-- `ExitNodeInfo.to_dict`: dictionary with datetime serialization. -/
def ExitNodeInfo.to_dict (n : ExitNodeInfo) : List (String × String) :=
  [("droplet_id", n.droplet_id), ("name", n.name), ("public_ip", n.public_ip),
   ("tailscale_ip", n.tailscale_ip), ("region", n.region), ("status", n.status),
   ("created_at", n.created_at.isoformat), ("last_checked", n.last_checked.isoformat)]

/-- `ExitNodeInfo.from_dict`: dictionary lookup with datetime parsing. -/
def ExitNodeInfo.from_dict (data : List (String × String)) : Option ExitNodeInfo := do
  let droplet_id ← data.lookup "droplet_id"
  let name ← data.lookup "name"
  let public_ip ← data.lookup "public_ip"
  let tailscale_ip ← data.lookup "tailscale_ip"
  let region ← data.lookup "region"
  let status ← data.lookup "status"
  let created_raw ← data.lookup "created_at"
  let last_raw ← data.lookup "last_checked"
  let created_at ← Timestamp.fromisoformat created_raw
  let last_checked ← Timestamp.fromisoformat last_raw
  pure ⟨droplet_id, name, public_ip, tailscale_ip, region, status, created_at, last_checked⟩

/-- What `_load_exit_nodes` can find at `exit_nodes.json`: no file, a
file that fails JSON decoding, or a decoded JSON array of objects. -/
inductive StateFile where
  | missing
  | corrupt
  | parsed (entries : List (List (String × String)))

/-- `_save_exit_nodes`: the JSON array written to the state file. -/
def saveExitNodes (nodes : List ExitNodeInfo) : List (List (String × String)) :=
  nodes.map ExitNodeInfo.to_dict

/-- The list comprehension `[ExitNodeInfo.from_dict d for d in data]`:
`none` as soon as any entry raises. -/
def fromDictList : List (List (String × String)) → Option (List ExitNodeInfo)
  | [] => some []
  | d :: rest => do
    let n ← ExitNodeInfo.from_dict d
    let ns ← fromDictList rest
    pure (n :: ns)

/-- `_load_exit_nodes`: a missing file, a JSON decode error, or any
exception while building the `ExitNodeInfo` list (a raising
`from_dict`) all fall back to the empty list. -/
def loadExitNodes : StateFile → List ExitNodeInfo
  | .missing => []
  | .corrupt => []
  | .parsed entries =>
    match fromDictList entries with
    | some nodes => nodes
    | none => []

/-- Serializing one instance and parsing it back is the identity. -/
lemma from_dict_to_dict (n : ExitNodeInfo)
    (hc : n.created_at.valid) (hl : n.last_checked.valid) :
    ExitNodeInfo.from_dict n.to_dict = some n := by
  simp [ExitNodeInfo.to_dict, ExitNodeInfo.from_dict, List.lookup,
        fromisoformat_isoformat n.created_at hc, fromisoformat_isoformat n.last_checked hl]

/-- C7: serializing a fleet snapshot to the durable JSON format and
reloading it reproduces every field of every instance exactly
(timestamps included), and a corrupt or missing state file loads as the
empty fleet without raising. -/
theorem state_file_roundtrip (nodes : List ExitNodeInfo)
    (h : ∀ n ∈ nodes, n.created_at.valid ∧ n.last_checked.valid) :
    loadExitNodes (.parsed (saveExitNodes nodes)) = nodes ∧
    loadExitNodes .corrupt = [] ∧ loadExitNodes .missing = [] := by
  refine ⟨?_, rfl, rfl⟩
  have hmap : fromDictList (saveExitNodes nodes) = some nodes := by
    induction nodes with
    | nil => rfl
    | cons n ns ih =>
      have hn := h n (by simp)
      have hns : ∀ m ∈ ns, m.created_at.valid ∧ m.last_checked.valid :=
        fun m hm => h m (by simp [hm])
      have ih2 := ih hns
      simp only [saveExitNodes] at ih2
      simp [saveExitNodes, fromDictList, from_dict_to_dict n hn.1 hn.2, ih2]
  simp [loadExitNodes, hmap]

/-- A concrete snapshot on which the round-trip theorem applies. -/
def sampleNode : ExitNodeInfo :=
  ⟨"12345", "tailscale-exit-fra1-1700000000", "203.0.113.7", "100.64.0.5",
   "fra1", "healthy", ⟨2024, 1, 2, 3, 4, 5, 123456, true⟩, ⟨2024, 1, 2, 3, 4, 5, 0, true⟩⟩

theorem state_file_roundtrip_witness :
    (∀ n ∈ [sampleNode], n.created_at.valid ∧ n.last_checked.valid) ∧
    (loadExitNodes (.parsed (saveExitNodes [sampleNode])) = [sampleNode] ∧
     loadExitNodes .corrupt = [] ∧ loadExitNodes .missing = []) :=
  ⟨by decide, state_file_roundtrip [sampleNode] (by decide)⟩

/-! ## Exceptions and configuration

The exception taxonomy of the source plus the exceptions of the
libraries it leans on (`tenacity.RetryError`, raised when a retry
decorator with the default `reraise=False` exhausts its attempts, and
`requests.RequestException` for ordinary network failures). -/

inductive PyError where
  | configurationError (msg : String)
  | dropletCreationError (msg : String)
  | nodeHealthCheckError (msg : String)
  | retryError
  | requestException
deriving DecidableEq, Repr

/-- `Config`: application configuration.  Counts are `Int` because
Python `int(...)` accepts negative values from the environment. -/
structure Config where
  do_token : String
  ts_authkey : String
  login_server : String
  region : String
  image_name : String
  name_prefix : String
  target_nodes : Int
  max_nodes : Int
  health_check_interval : Int
  log_level : String
deriving DecidableEq, Repr

/-- `Config.__post_init__`: an empty token, an empty auth key (Python
falsiness of `str` is emptiness), or `target_nodes > max_nodes` raises
`ConfigurationError`. -/
def Config.postInit (c : Config) : Except PyError Config :=
  if c.do_token = "" then .error (.configurationError "DO_TOKEN is required")
  else if c.ts_authkey = "" then .error (.configurationError "TS_AUTHKEY is required")
  else if c.target_nodes > c.max_nodes then
    .error (.configurationError "target_nodes cannot exceed max_nodes")
  else .ok c

/-! ## DigitalOcean resource initialization (`_init_do_resources`)

The provider API is an external collaborator; its responses are an
environment record.  Each getter either returns data or raises, and the
number of provider calls actually issued is threaded through so the
ordering claim (validation before any provider call) is observable. -/

structure DORegion where
  slug : String
deriving DecidableEq, Repr

structure DOSize where
  slug : String
  regions : List String
  memory : Int
  price_monthly : Option Int
deriving DecidableEq, Repr

structure DOImage where
  slug : Option String
  id : Int
deriving DecidableEq, Repr

structure DOEnv where
  droplets : Except String (List (String × String))
  regions : Except String (List DORegion)
  sizes : Except String (List DOSize)
  images : Except String (List DOImage)

/-- `_find_region`. -/
def findRegion (regions : List DORegion) (slug : String) : Except PyError DORegion :=
  match regions.find? (fun r => r.slug = slug) with
  | some r => .ok r
  | none => .error (.configurationError ("Region " ++ slug ++ " not found"))

/-- `_validate_image_availability`: some listed image must have a slug
containing `image_name` as a substring. -/
def validateImageAvailability (images : List DOImage) (image_name : String) :
    Except PyError Unit :=
  if images.any (fun img =>
      match img.slug with
      | some s => decide (List.IsInfix image_name.data s.data)
      | none => false) then .ok ()
  else .error (.configurationError ("Image slug containing " ++ image_name ++ " not found"))

/-- `_select_optimal_size`: first size of minimal monthly price among
the sizes offered in the region with at least 1 GB of memory and a
listed price (Python `min` keeps the first minimum). -/
def selectOptimalSize (sizes : List DOSize) (region : DORegion) : Except PyError DOSize :=
  let valid := sizes.filter (fun s =>
    region.slug ∈ s.regions && s.memory ≥ 1000 && s.price_monthly.isSome)
  match valid with
  | [] => .error (.configurationError ("No suitable size found in region " ++ region.slug))
  | s0 :: rest =>
    .ok (rest.foldl (fun best s =>
      if s.price_monthly.getD 0 < best.price_monthly.getD 0 then s else best) s0)

/-- `_init_do_resources`: four provider calls (droplets, regions,
sizes, images), then local validation; any raised error is wrapped into
a `ConfigurationError`.  Returns the outcome and the number of provider
calls issued.  `get_droplets` catches its own fetch errors (falling
back to the empty cache), so the first call never raises. -/
def initDOResources (env : DOEnv) (c : Config) :
    Except PyError (DORegion × DOSize) × Nat :=
  match env.regions with
  | .error e => (.error (.configurationError ("DO resource initialization failed: " ++ e)), 2)
  | .ok regions =>
    match env.sizes with
    | .error e => (.error (.configurationError ("DO resource initialization failed: " ++ e)), 3)
    | .ok sizes =>
      match env.images with
      | .error e =>
        (.error (.configurationError ("DO resource initialization failed: " ++ e)), 4)
      | .ok images =>
        match findRegion regions c.region with
        | .error e => (.error e, 4)
        | .ok region =>
          match validateImageAvailability images c.image_name with
          | .error e => (.error e, 4)
          | .ok _ =>
            match selectOptimalSize sizes region with
            | .error e => (.error e, 4)
            | .ok size => (.ok (region, size), 4)

/-- Outcome of `main` up to entering the run loop. -/
inductive StartupOutcome where
  | exitConfigError
  | running (region : DORegion) (size : DOSize)
deriving DecidableEq, Repr

/-- `main` up to `manager.run()`: build the `Config` (running
`__post_init__`), then construct the manager, whose `__init__` issues
the provider calls; a `ConfigurationError` anywhere exits with status 1.
The second component counts provider API calls issued. -/
def mainStartup (c : Config) (env : DOEnv) : StartupOutcome × Nat :=
  match Config.postInit c with
  | .error _ => (.exitConfigError, 0)
  | .ok c' =>
    match initDOResources env c' with
    | (.ok (r, s), calls) => (.running r s, calls)
    | (.error _, calls) => (.exitConfigError, calls)

/-- C4: a configuration with `target_nodes > max_nodes`, an empty
provider token, or an empty join secret makes startup fail with
`ConfigurationError` before any provider API call is made. -/
theorem invalid_config_fails_before_provider_calls (c : Config) (env : DOEnv)
    (h : c.target_nodes > c.max_nodes ∨ c.do_token = "" ∨ c.ts_authkey = "") :
    (mainStartup c env).1 = .exitConfigError ∧ (mainStartup c env).2 = 0 := by
  unfold mainStartup Config.postInit
  rcases h with h | h | h
  · by_cases h1 : c.do_token = "" <;> by_cases h2 : c.ts_authkey = "" <;>
      simp [h1, h2, h, not_le.mpr h]
  · simp [h]
  · by_cases h1 : c.do_token = "" <;> simp [h1, h]

/-- A concrete invalid configuration (target 5 > max 3). -/
def sampleBadConfig : Config :=
  ⟨"tok", "key", "https://controlplane.tailscale.com", "fra1", "ubuntu-22-04",
   "tailscale-exit", 5, 3, 300, "INFO"⟩

/-- A concrete provider environment for witnesses. -/
def sampleDOEnv : DOEnv :=
  ⟨.ok [("1", "active")], .ok [⟨"fra1"⟩],
   .ok [⟨"s-1vcpu-1gb", ["fra1"], 1024, some 6⟩], .ok [⟨some "ubuntu-22-04-x64", 1⟩]⟩

theorem invalid_config_fails_before_provider_calls_witness :
    (sampleBadConfig.target_nodes > sampleBadConfig.max_nodes ∨
     sampleBadConfig.do_token = "" ∨ sampleBadConfig.ts_authkey = "") ∧
    ((mainStartup sampleBadConfig sampleDOEnv).1 = .exitConfigError ∧
     (mainStartup sampleBadConfig sampleDOEnv).2 = 0) :=
  ⟨by decide, invalid_config_fails_before_provider_calls sampleBadConfig sampleDOEnv (by decide)⟩

/-! ## Readiness prober (`_get_status_via_http`)

The three HTTP endpoints on a node are an environment record: each
`GET` either raises `requests.RequestException` or returns a status
code and body.  `raised` on the status-JSON endpoint also covers a 200
response whose body fails JSON decoding (`response.json()` raises
`requests.exceptions.JSONDecodeError`, a `RequestException`
subclass). -/

inductive HttpResult where
  | raised
  | resp (code : Nat) (body : String)
deriving DecidableEq, Repr

structure NodeHttp where
  setupComplete : HttpResult
  tsIp : HttpResult
  tsStatus : HttpResult
deriving DecidableEq, Repr

/-- The dictionary `_get_status_via_http` returns: either
`{'is_ready': False}` or `{'is_ready': True, 'tailscale_ip': ...,
'tailscale_status': ...}` (`tailscale_status = none` models the empty
default taken when the status endpoint did not return 200; `some body`
the decoded JSON blob, kept abstract as its body text). -/
inductive StatusDict where
  | notReady
  | ready (tailscale_ip : String) (tailscale_status : Option String)
deriving DecidableEq, Repr

/-- The `try` block of `_get_status_via_http`: a raising `GET` anywhere
in the block propagates `requests.RequestException`. -/
def getStatusViaHttpTry (e : NodeHttp) : Except PyError StatusDict :=
  match e.setupComplete with
  | .raised => .error .requestException
  | .resp code _ =>
    if code ≠ 200 then .ok .notReady
    else
      match e.tsIp with
      | .raised => .error .requestException
      | .resp ipCode ipBody =>
        let ts_ip := if ipCode = 200 then ipBody.trim else ""
        match e.tsStatus with
        | .raised => .error .requestException
        | .resp stCode stBody =>
          .ok (.ready ts_ip (if stCode = 200 then some stBody else none))

/-- `_get_status_via_http`: the `except requests.RequestException`
handler turns every network failure into `{'is_ready': False}`. -/
def getStatusViaHttp (e : NodeHttp) : StatusDict :=
  match getStatusViaHttpTry e with
  | .ok d => d
  | .error _ => .notReady

/-- C6 (amended): the prober never lets an ordinary network failure
escape — the only error its body can raise is `RequestException`,
which the handler maps to `is_ready = false`; a non-success response
from the readiness marker yields `is_ready = false`; non-success
*responses* from the two secondary endpoints are not fatal and default
the overlay address and status to empty/absent with `is_ready = true`.
(A secondary probe that *raises*, by contrast, is caught by the outer
handler and yields `is_ready = false`; see the counterexample.) -/
theorem prober_error_handling (e : NodeHttp) :
    (∀ err, getStatusViaHttpTry e = .error err →
      err = .requestException ∧ getStatusViaHttp e = .notReady) ∧
    (∀ code body, e.setupComplete = .resp code body → code ≠ 200 →
      getStatusViaHttp e = .notReady) ∧
    (∀ body ipCode ipBody stCode stBody,
      e.setupComplete = .resp 200 body →
      e.tsIp = .resp ipCode ipBody → ipCode ≠ 200 →
      e.tsStatus = .resp stCode stBody → stCode ≠ 200 →
      getStatusViaHttp e = .ready "" none) := by
  obtain ⟨setup, tsIp, tsStatus⟩ := e
  refine ⟨?_, ?_, ?_⟩
  · intro err herr
    cases setup with
    | raised =>
      simp [getStatusViaHttpTry] at herr
      simp [getStatusViaHttp, getStatusViaHttpTry, herr]
    | resp code body =>
      by_cases hc : code = 200
      · subst hc
        cases tsIp with
        | raised =>
          simp [getStatusViaHttpTry] at herr
          simp [getStatusViaHttp, getStatusViaHttpTry, herr]
        | resp ipCode ipBody =>
          cases tsStatus with
          | raised =>
            simp [getStatusViaHttpTry] at herr
            simp [getStatusViaHttp, getStatusViaHttpTry, herr]
          | resp stCode stBody => simp [getStatusViaHttpTry] at herr
      · simp [getStatusViaHttpTry, hc] at herr
  · rintro code body rfl hc
    simp [getStatusViaHttp, getStatusViaHttpTry, hc]
  · rintro body ipCode ipBody stCode stBody rfl rfl hip rfl hst
    simp [getStatusViaHttp, getStatusViaHttpTry, hip, hst]

theorem prober_error_handling_witness :
    ((⟨.resp 500 "err", .raised, .raised⟩ : NodeHttp).setupComplete = .resp 500 "err") ∧
    (500 ≠ 200) ∧
    getStatusViaHttp ⟨.resp 500 "err", .raised, .raised⟩ = .notReady ∧
    getStatusViaHttp ⟨.resp 200 "ok", .resp 404 "nf", .resp 404 "nf"⟩ = .ready "" none :=
  ⟨rfl, by decide,
   (prober_error_handling ⟨.resp 500 "err", .raised, .raised⟩).2.1 500 "err" rfl (by decide),
   (prober_error_handling ⟨.resp 200 "ok", .resp 404 "nf", .resp 404 "nf"⟩).2.2
     "ok" 404 "nf" 404 "nf" rfl rfl (by decide) rfl (by decide)⟩

/-- The `is_ready` entry of the returned dictionary. -/
def StatusDict.is_ready : StatusDict → Bool
  | .notReady => false
  | .ready _ _ => true

/-- C6 counterexample: the claim says a failure of a secondary endpoint
leaves `reachable = true`; but when the overlay-address probe *raises*
(ordinary network failure) while the marker returned 200, the outer
handler catches it and the whole result is `is_ready = false`. -/
theorem prober_secondary_raise_counterexample :
    getStatusViaHttp ⟨.resp 200 "ok", .raised, .resp 200 "st"⟩ = .notReady ∧
    (getStatusViaHttp ⟨.resp 200 "ok", .raised, .resp 200 "st"⟩).is_ready = false := ⟨rfl, rfl⟩

/-! ## Retry policy (`tenacity`) and the readiness wait

`@tenacity.retry(retry=retry_if_exception_type(E), stop=stop_after_attempt(k))`
with the default `reraise=False`: the body runs up to `k` times;
an exception matching the retry predicate triggers another attempt
(after the configured wait — 30 s fixed for the readiness wait,
exponential 5–60 s for droplet creation; the waits do not affect the
returned value and are not modelled); when the stop condition is
reached the wrapper raises `tenacity.RetryError`, not the body's last
exception; an exception not matching the predicate propagates as
itself. -/

def tenacityRetry (maxAttempts : Nat) (retryOn : PyError → Bool)
    (body : Nat → Except PyError α) : Except PyError α :=
  go maxAttempts 1
where
  go : Nat → Nat → Except PyError α
    | 0, _ => .error .retryError
    | fuel + 1, attempt =>
      match body attempt with
      | .ok a => .ok a
      | .error e =>
        if retryOn e then
          if fuel = 0 then .error .retryError else go fuel (attempt + 1)
        else .error e

/-- Does the probe attempt count as ready (HTTP 200)? -/
def probeOk : HttpResult → Bool
  | .resp 200 _ => true
  | _ => false

/-- One body execution of `_wait_for_http_ready`: a 200 response
returns `True`; a raising `GET` is swallowed and, like any non-200
response, falls through to `raise NodeHealthCheckError`. -/
def waitBody (probe : Nat → HttpResult) (attempt : Nat) : Except PyError Bool :=
  if probeOk (probe attempt) then .ok true
  else .error (.nodeHealthCheckError "HTTP service not ready after multiple attempts.")

/-- `_wait_for_http_ready` with its decorator: retry on
`NodeHealthCheckError`, fixed 30 s wait, stop after 10 attempts. -/
def waitForHttpReady (probe : Nat → HttpResult) : Except PyError Bool :=
  tenacityRetry 10
    (fun e => match e with | .nodeHealthCheckError _ => true | _ => false)
    (waitBody probe)

/-- A DigitalOcean droplet as `_provision_single_node` sees it. -/
structure Droplet where
  id : Nat
  name : String
  ip_address : Option String
  status : String
deriving DecidableEq, Repr

/-- The dictionary `_get_node_status` builds, or `none` where the
Python function returns `None`. -/
structure NodeStatusData where
  public_ip : String
  tailscale_ip : Option String
  is_reachable : Bool
  tailscale_status : Option String
deriving DecidableEq, Repr

/-- `_get_node_status`: `None` for a droplet without a public IP or an
invalid IP string (`ipValid` is the outcome of
`ipaddress.ip_address`); otherwise repackages the prober's
dictionary — `tailscale_ip` is absent when the node is not ready. -/
def getNodeStatus (ip : Option String) (ipValid : Bool) (http : NodeHttp) :
    Option NodeStatusData :=
  match ip with
  | none => none
  | some a =>
    if ipValid then
      match getStatusViaHttp http with
      | .notReady => some ⟨a, none, false, none⟩
      | .ready ts st => some ⟨a, some ts, true, st⟩
    else none

/-- Environment of one `_provision_single_node` call: the outcome of
each `_create_droplet` body attempt, the readiness probe per wait
attempt, the HTTP endpoints for the final status check, the destroy
outcome (ignored: destroy failures are only logged), the wall clock
and the configured region. -/
structure ProvisionEnv where
  createAttempt : Nat → Except PyError Droplet
  probe : Nat → HttpResult
  ipValid : Bool
  statusHttp : NodeHttp
  destroySucceeds : Bool
  now : Timestamp
  region_slug : String

/-- What one provisioning attempt produced: the tracked instance (or
none) and whether a cleanup destroy of the created droplet was
attempted. -/
structure ProvisionResult where
  node : Option ExitNodeInfo
  destroyAttempted : Bool
deriving DecidableEq, Repr

/-- `_provision_single_node`: create (retried), wait for readiness
(retried), query the full status; any exception after the droplet
exists leads to a best-effort destroy and `None`; a create failure
leaves nothing to destroy. -/
def provisionSingleNode (env : ProvisionEnv) : ProvisionResult :=
  match tenacityRetry 3 (fun _ => true) env.createAttempt with
  | .error _ => ⟨none, false⟩
  | .ok droplet =>
    match waitForHttpReady env.probe with
    | .error _ => ⟨none, true⟩
    | .ok _ =>
      match getNodeStatus droplet.ip_address env.ipValid env.statusHttp with
      | none => ⟨none, true⟩
      | some d =>
        if d.is_reachable then
          ⟨some ⟨toString droplet.id, droplet.name,
                 d.public_ip, d.tailscale_ip.getD "unknown",
                 env.region_slug, "healthy", env.now, env.now⟩, false⟩
        else ⟨none, true⟩

/-- C3 counterexample: when every probe attempt fails, the wait step
does not raise `NodeHealthCheckError` to its caller — `tenacity` with
the default `reraise=False` raises `RetryError` instead. -/
theorem wait_exhaustion_counterexample :
    waitForHttpReady (fun _ => .raised) = .error .retryError ∧
    Except.error (α := Bool) PyError.retryError ≠
      .error (.nodeHealthCheckError
        "HTTP service not ready after multiple attempts.") := by
  constructor
  · rfl
  · intro h
    cases h

lemma tenacityRetry_go_exhausts {α : Type} (retryOn : PyError → Bool)
    (body : Nat → Except PyError α)
    (h : ∀ i, ∃ e, body i = .error e ∧ retryOn e = true) :
    ∀ fuel attempt, tenacityRetry.go retryOn body fuel attempt = .error .retryError := by
  intro fuel
  induction fuel with
  | zero => intro attempt; rfl
  | succ n ih =>
    intro attempt
    obtain ⟨e, he, hr⟩ := h attempt
    by_cases hn : n = 0
    · subst hn
      simp [tenacityRetry.go, he, hr]
    · simp [tenacityRetry.go, he, hr, hn, ih]

/-- C3 (amended): when the readiness probe fails on all attempts, the
wait step raises a retry-exhaustion error (`tenacity.RetryError`,
wrapping the repeated `NodeHealthCheckError`s) after its 10 attempts;
`_provision_single_node` catches it, attempts to destroy the created
droplet, and returns no instance. -/
theorem wait_exhaustion_destroys_droplet (env : ProvisionEnv) (d : Droplet)
    (hcreate : tenacityRetry 3 (fun _ => true) env.createAttempt = .ok d)
    (hprobe : ∀ i, probeOk (env.probe i) = false) :
    waitForHttpReady env.probe = .error .retryError ∧
    (provisionSingleNode env).node = none ∧
    (provisionSingleNode env).destroyAttempted = true := by
  have hwait : waitForHttpReady env.probe = .error .retryError := by
    unfold waitForHttpReady tenacityRetry
    apply tenacityRetry_go_exhausts
    intro i
    exact ⟨.nodeHealthCheckError "HTTP service not ready after multiple attempts.",
           by simp [waitBody, hprobe i], rfl⟩
  refine ⟨hwait, ?_, ?_⟩ <;> simp [provisionSingleNode, hcreate, hwait]

/-- A concrete provisioning environment whose probe always fails. -/
def sampleWaitEnv : ProvisionEnv :=
  ⟨fun _ => .ok ⟨42, "tailscale-exit-fra1-1700000000", some "203.0.113.7", "active"⟩,
   fun _ => .raised, true, ⟨.raised, .raised, .raised⟩, false,
   ⟨2024, 1, 2, 3, 4, 5, 0, true⟩, "fra1"⟩

theorem wait_exhaustion_destroys_droplet_witness :
    (tenacityRetry 3 (fun _ => true) sampleWaitEnv.createAttempt =
      .ok ⟨42, "tailscale-exit-fra1-1700000000", some "203.0.113.7", "active"⟩) ∧
    (∀ i, probeOk (sampleWaitEnv.probe i) = false) ∧
    (waitForHttpReady sampleWaitEnv.probe = .error .retryError ∧
     (provisionSingleNode sampleWaitEnv).node = none ∧
     (provisionSingleNode sampleWaitEnv).destroyAttempted = true) :=
  ⟨rfl, fun _ => rfl,
   wait_exhaustion_destroys_droplet sampleWaitEnv _ rfl (fun _ => rfl)⟩

/-! ## Existing-node health check (`_check_existing_nodes`)

The provider inventory snapshot `{str(d.id): d for d in get_droplets()}`
is an association list from droplet id to provider-side status; the
per-droplet data `_get_node_status` needs (public IP, IP validity, the
node's HTTP endpoints) and whether the check body raises for a found
droplet (the dictionary membership test itself cannot raise, so
`raises` is only consulted for droplets present in the inventory) are
functions of the droplet id. -/

structure CheckEnv where
  inventory : List (String × String)
  ipAddress : String → Option String
  ipValid : String → Bool
  nodeHttp : String → NodeHttp
  raises : String → Bool
  now : Timestamp

/-- The loop body of `_check_existing_nodes` for one tracked instance:
`none` means the instance is marked for removal from tracking (absent
from the provider inventory); otherwise the mutated instance. -/
def processNode (env : CheckEnv) (n : ExitNodeInfo) : Option ExitNodeInfo :=
  match env.inventory.lookup n.droplet_id with
  | none => none
  | some pstatus =>
    if env.raises n.droplet_id then some { n with status := "error" }
    else if pstatus = "active" then
      match getNodeStatus (env.ipAddress n.droplet_id) (env.ipValid n.droplet_id)
              (env.nodeHttp n.droplet_id) with
      | some d =>
        if d.is_reachable then
          some { n with status := "healthy",
                        tailscale_ip := d.tailscale_ip.getD n.tailscale_ip,
                        last_checked := env.now }
        else some { n with status := "unhealthy", last_checked := env.now }
      | none => some { n with status := "unhealthy", last_checked := env.now }
    else some { n with status := "unhealthy" }

/-- `_check_existing_nodes`: process every tracked instance, drop the
vanished ones, and return the remaining list together with the nodes
that passed the health check (exactly those that left the body with
status `healthy`). -/
def checkExistingNodes (env : CheckEnv) (nodes : List ExitNodeInfo) :
    List ExitNodeInfo × List ExitNodeInfo :=
  let remaining := nodes.filterMap (processNode env)
  (remaining, remaining.filter (fun m => m.status = "healthy"))

/-- C8 (amended): `last_checked` is refreshed exactly on the
provider-status-`active` paths (reachable or not); an instance whose
provider status is anything else, or whose check raises, keeps its
previous `last_checked`. -/
theorem last_checked_update_policy (env : CheckEnv) (n : ExitNodeInfo) :
    (env.raises n.droplet_id = false →
      env.inventory.lookup n.droplet_id = some "active" →
      ∀ m, processNode env n = some m → m.last_checked = env.now) ∧
    (∀ st, env.raises n.droplet_id = false →
      env.inventory.lookup n.droplet_id = some st → st ≠ "active" →
      processNode env n = some { n with status := "unhealthy" }) ∧
    (∀ st, env.raises n.droplet_id = true →
      env.inventory.lookup n.droplet_id = some st →
      processNode env n = some { n with status := "error" }) := by
  refine ⟨?_, ?_, ?_⟩
  · intro hr hl m hm
    simp only [processNode, hl, hr] at hm
    rcases hstat : getNodeStatus (env.ipAddress n.droplet_id) (env.ipValid n.droplet_id)
        (env.nodeHttp n.droplet_id) with _ | d
    · simp [hstat] at hm
      simp [← hm]
    · simp only [hstat] at hm
      by_cases hreach : d.is_reachable = true <;> simp [hreach] at hm <;> simp [← hm]
  · intro st hr hl hst
    simp [processNode, hl, hr, hst]
  · intro st hr hl
    simp [processNode, hl, hr]

/-- A node with non-`active` provider status, to instantiate C8. -/
def sampleStaleEnv : CheckEnv :=
  ⟨[("12345", "off")], fun _ => some "203.0.113.7", fun _ => true,
   fun _ => ⟨.raised, .raised, .raised⟩, fun _ => false,
   ⟨2025, 6, 7, 8, 9, 10, 0, true⟩⟩

theorem last_checked_update_policy_witness :
    (sampleStaleEnv.raises sampleNode.droplet_id = false) ∧
    (sampleStaleEnv.inventory.lookup sampleNode.droplet_id = some "off") ∧
    ("off" ≠ "active") ∧
    processNode sampleStaleEnv sampleNode = some { sampleNode with status := "unhealthy" } :=
  ⟨rfl, by decide, by decide,
   (last_checked_update_policy sampleStaleEnv sampleNode).2.1 "off" rfl (by decide) (by decide)⟩

/-- C8 counterexample: the claim says every evaluated instance gets its
`last_checked` refreshed, including those whose provider status is not
`active`; but a tracked instance found with provider status `off` is
marked `unhealthy` with its old timestamp intact (here the old
timestamp differs from the cycle's clock). -/
theorem last_checked_not_updated_counterexample :
    checkExistingNodes sampleStaleEnv [sampleNode] =
      ([{ sampleNode with status := "unhealthy" }], []) ∧
    sampleNode.last_checked ≠ sampleStaleEnv.now := by
  constructor
  · rfl
  · decide

/-! ## Cleanup of failed nodes (`_cleanup_failed_nodes`) -/

/-- `_cleanup_failed_nodes`: for every tracked instance with status
`unhealthy` or `error`, a provider-side destroy is attempted (its
outcome `destroyRes` is caught and only logged), and the instance is
removed from tracking unconditionally.  Returns the remaining list and
the droplet ids for which a destroy was attempted. -/
def cleanupFailedNodes (destroyRes : String → Bool) (nodes : List ExitNodeInfo) :
    List ExitNodeInfo × List String :=
  let failed := nodes.filter (fun n => n.status = "unhealthy" || n.status = "error")
  (nodes.filter (fun n => !(n.status = "unhealthy" || n.status = "error")),
   failed.map (fun n => n.droplet_id))

/-- C5: every tracked instance with status `unhealthy` or `error` has a
destroy attempted and is removed from tracking whatever the destroy
outcome (the conclusion holds for every `destroyRes`, failing destroys
included); no unhealthy or error instance survives cleanup. -/
theorem cleanup_untracks_failed (destroyRes : String → Bool) (nodes : List ExitNodeInfo) :
    (∀ n ∈ nodes, n.status = "unhealthy" ∨ n.status = "error" →
      n.droplet_id ∈ (cleanupFailedNodes destroyRes nodes).2) ∧
    (∀ m ∈ (cleanupFailedNodes destroyRes nodes).1,
      m.status ≠ "unhealthy" ∧ m.status ≠ "error") := by
  constructor
  · intro n hn hstat
    simp only [cleanupFailedNodes, List.mem_map]
    exact ⟨n, by simp [List.mem_filter, hn, hstat.elim (fun h => Or.inl h) (fun h => Or.inr h)], rfl⟩
  · intro m hm
    simp only [cleanupFailedNodes, List.mem_filter] at hm
    have := hm.2
    constructor <;> intro h <;> simp [h] at this

/-- An unhealthy tracked instance whose destroy call fails. -/
def sampleUnhealthyNode : ExitNodeInfo :=
  { sampleNode with status := "unhealthy" }

theorem cleanup_untracks_failed_witness :
    (sampleUnhealthyNode ∈ [sampleUnhealthyNode]) ∧
    (sampleUnhealthyNode.status = "unhealthy" ∨ sampleUnhealthyNode.status = "error") ∧
    sampleUnhealthyNode.droplet_id ∈
      (cleanupFailedNodes (fun _ => false) [sampleUnhealthyNode]).2 ∧
    ∀ m ∈ (cleanupFailedNodes (fun _ => false) [sampleUnhealthyNode]).1,
      m.status ≠ "unhealthy" ∧ m.status ≠ "error" :=
  ⟨by decide, by decide,
   (cleanup_untracks_failed (fun _ => false) [sampleUnhealthyNode]).1
     sampleUnhealthyNode (by decide) (by decide),
   (cleanup_untracks_failed (fun _ => false) [sampleUnhealthyNode]).2⟩

/-! ## Droplet listing with cache (`DigitalOceanClient.get_droplets`) -/

/-- The client's droplet cache: the cached inventory (droplet id and
provider status per entry) and the time it was taken. -/
structure DropletsCache where
  cache : Option (List (String × String))
  cacheTime : Option Int
deriving DecidableEq, Repr

/-- `get_droplets`: refresh when forced, when nothing is cached, or
when the cache is older than the TTL; a failing fetch falls back to
`self._droplets_cache or []` (the empty list when the cache is absent
or empty) instead of raising. -/
def getDroplets (fetch : Except String (List (String × String)))
    (now ttl : Int) (st : DropletsCache) (forceRefresh : Bool) :
    List (String × String) × DropletsCache :=
  if forceRefresh || st.cache.isNone || st.cacheTime.isNone ||
     (now - st.cacheTime.getD 0) > ttl then
    match fetch with
    | .ok ds => (ds, ⟨some ds, some now⟩)
    | .error _ => (st.cache.getD [], st)
  else (st.cache.getD [], st)

/-! ## Batch provisioning and the reconciliation cycle -/

/-- `_provision_nodes`: submit exactly `count` provisioning attempts
(the worker pool and `as_completed` do not change which attempts run or
the set of successes, only completion order); the successful
`ExitNodeInfo`s are appended to the tracked list under the lock.
Returns the extended list and the number of attempts started. -/
def provisionNodes (slotResult : Nat → Option ExitNodeInfo) (count : Nat)
    (nodes : List ExitNodeInfo) : List ExitNodeInfo × Nat :=
  ((List.range count).filterMap slotResult |> (nodes ++ ·), count)

/-- Everything one reconciliation cycle consumes from the outside
world. -/
structure CycleEnv where
  check : CheckEnv
  destroyRes : String → Bool
  slotResult : Nat → Option ExitNodeInfo

/-- What one reconciliation cycle produced. -/
structure CycleResult where
  nodes : List ExitNodeInfo
  healthyFound : List ExitNodeInfo
  destroysAttempted : List String
  attemptsStarted : Nat
deriving Repr

/-- One iteration of `run`'s management cycle: health-check the
tracked instances, clean up the failed ones, compute the shortfall
against the target, provision it clamped to `max_nodes`, and persist
(persisting does not change the fleet and is not represented in the
result). -/
def runCycle (cfg : Config) (env : CycleEnv) (nodes : List ExitNodeInfo) : CycleResult :=
  let checked := checkExistingNodes env.check nodes
  let cleaned := cleanupFailedNodes env.destroyRes checked.1
  let afterCleanup := cleaned.1
  let currentHealthy : Int :=
    ((afterCleanup.filter (fun n => n.status = "healthy")).length : Int)
  let needed : Int := max 0 (cfg.target_nodes - currentHealthy)
  if 0 < needed then
    if (afterCleanup.length : Int) + needed ≤ cfg.max_nodes then
      let p := provisionNodes env.slotResult needed.toNat afterCleanup
      ⟨p.1, checked.2, cleaned.2, p.2⟩
    else
      let maxCanCreate : Int := max 0 (cfg.max_nodes - (afterCleanup.length : Int))
      if 0 < maxCanCreate then
        let p := provisionNodes env.slotResult maxCanCreate.toNat afterCleanup
        ⟨p.1, checked.2, cleaned.2, p.2⟩
      else ⟨afterCleanup, checked.2, cleaned.2, 0⟩
  else ⟨afterCleanup, checked.2, cleaned.2, 0⟩

/-- C2: the number of provisioning attempts started in a cycle is
`needed = max(0, target - healthy)` when `tracked + needed ≤ max`, and
`max(0, max - tracked)` otherwise, with `tracked` and `healthy` taken
after cleanup (every branch of `run`, including the needed-is-zero and
already-at-max branches where nothing is started, agrees with this
formula). -/
theorem provisioning_attempts_formula (cfg : Config) (env : CycleEnv)
    (nodes : List ExitNodeInfo) :
    (runCycle cfg env nodes).attemptsStarted =
      (let afterCleanup :=
        (cleanupFailedNodes env.destroyRes (checkExistingNodes env.check nodes).1).1
       let needed : Int := max 0 (cfg.target_nodes -
         ((afterCleanup.filter (fun n => n.status = "healthy")).length : Int))
       if (afterCleanup.length : Int) + needed ≤ cfg.max_nodes then needed.toNat
       else (max 0 (cfg.max_nodes - (afterCleanup.length : Int))).toNat) := by
  simp only [runCycle, provisionNodes]
  generalize (cleanupFailedNodes env.destroyRes (checkExistingNodes env.check nodes).1) = cleaned
  obtain ⟨afterCleanup, destroys⟩ := cleaned
  simp only []
  generalize ((afterCleanup.filter (fun n => n.status = "healthy")).length : Int) = healthy
  generalize hn : max 0 (cfg.target_nodes - healthy) = needed
  have hneed : 0 ≤ needed := hn ▸ le_max_left 0 _
  by_cases h0 : 0 < needed
  · simp only [if_pos h0]
    by_cases h1 : (afterCleanup.length : Int) + needed ≤ cfg.max_nodes
    · simp [h1]
    · simp only [if_neg h1]
      by_cases h2 : 0 < max 0 (cfg.max_nodes - (afterCleanup.length : Int))
      · simp [h2]
      · simp only [if_neg h2]
        omega
  · simp only [if_neg h0]
    by_cases h1 : (afterCleanup.length : Int) + needed ≤ cfg.max_nodes
    · simp only [if_pos h1]
      omega
    · simp only [if_neg h1]
      omega

/-- Scenario D of the spec, concretely: after cleanup one healthy node
is tracked, the shortfall is 5 (`target 6 − healthy 1`), the headroom
`max 3 − tracked 1 = 2`: exactly 2 attempts are started, not 5. -/
def scenarioDConfig : Config :=
  ⟨"tok", "key", "https://controlplane.tailscale.com", "fra1", "ubuntu-22-04",
   "tailscale-exit", 6, 3, 300, "INFO"⟩

/-- Environment for scenario D: the tracked node is active and
reachable, provisioning attempts all fail (attempt counting is what is
observed). -/
def scenarioDEnv : CycleEnv :=
  ⟨⟨[("12345", "active")], fun _ => some "203.0.113.7", fun _ => true,
    fun _ => ⟨.resp 200 "ok", .resp 200 "100.64.0.5", .resp 404 "nf"⟩,
    fun _ => false, ⟨2025, 6, 7, 8, 9, 10, 0, true⟩⟩,
   fun _ => true, fun _ => none⟩

theorem provisioning_attempts_scenarioD :
    (runCycle scenarioDConfig scenarioDEnv [sampleNode]).attemptsStarted = 2 := by decide

lemma checkExistingNodes_length_le (env : CheckEnv) (nodes : List ExitNodeInfo) :
    (checkExistingNodes env nodes).1.length ≤ nodes.length :=
  List.length_filterMap_le _ _

lemma cleanupFailedNodes_length_le (destroyRes : String → Bool) (nodes : List ExitNodeInfo) :
    (cleanupFailedNodes destroyRes nodes).1.length ≤ nodes.length :=
  List.length_filter_le _ _

lemma provisionNodes_length_le (slotResult : Nat → Option ExitNodeInfo) (count : Nat)
    (nodes : List ExitNodeInfo) :
    (provisionNodes slotResult count nodes).1.length ≤ nodes.length + count := by
  have h := List.length_filterMap_le slotResult (List.range count)
  simp only [provisionNodes, List.length_append]
  simpa using Nat.add_le_add_left (by simpa using h) nodes.length

/-- C1 (amended): a cycle never pushes the tracked count above
`max_nodes` — after a cycle, `trackedCount ≤ max(initial trackedCount,
maxCount)`; in particular a fleet that starts within the limit stays
within it.  (The unconditional `trackedCount ≤ maxCount` of the claim
fails when the loaded state file already tracks more than `max_nodes`
and every instance stays healthy; see the counterexample.) -/
theorem tracked_count_bounded (cfg : Config) (env : CycleEnv) (nodes : List ExitNodeInfo) :
    ((runCycle cfg env nodes).nodes.length : Int) ≤
      max (nodes.length : Int) cfg.max_nodes := by
  have hchk := checkExistingNodes_length_le env.check nodes
  have hcln := cleanupFailedNodes_length_le env.destroyRes (checkExistingNodes env.check nodes).1
  simp only [runCycle]
  generalize hgen : (cleanupFailedNodes env.destroyRes (checkExistingNodes env.check nodes).1) = cleaned at hcln
  obtain ⟨afterCleanup, destroys⟩ := cleaned
  simp only []
  have hlen : afterCleanup.length ≤ nodes.length := le_trans hcln hchk
  generalize ((afterCleanup.filter (fun n => n.status = "healthy")).length : Int) = healthy
  generalize hn : max 0 (cfg.target_nodes - healthy) = needed
  have hneed : 0 ≤ needed := hn ▸ le_max_left 0 _
  by_cases h0 : 0 < needed
  · simp only [if_pos h0]
    by_cases h1 : (afterCleanup.length : Int) + needed ≤ cfg.max_nodes
    · simp only [if_pos h1]
      have := provisionNodes_length_le env.slotResult needed.toNat afterCleanup
      simp only [max_def]
      split <;> omega
    · simp only [if_neg h1]
      by_cases h2 : 0 < max 0 (cfg.max_nodes - (afterCleanup.length : Int))
      · simp only [if_pos h2]
        have := provisionNodes_length_le env.slotResult
          (max 0 (cfg.max_nodes - (afterCleanup.length : Int))).toNat afterCleanup
        have hmx : max 0 (cfg.max_nodes - (afterCleanup.length : Int)) =
            cfg.max_nodes - (afterCleanup.length : Int) := by omega
        rw [hmx] at this ⊢
        simp only [max_def]
        split <;> omega
      · simp only [if_neg h2]
        simp only [max_def]
        split <;> omega
  · simp only [if_neg h0]
    simp only [max_def]
    split <;> omega

/-- C1 counterexample: a validly configured manager (target 1 ≤ max 3)
that loaded four tracked instances from the state file — say the
operator lowered `MAX_EXIT_NODES` between runs — keeps all four when
they stay healthy: after the cycle `trackedCount = 4 > maxCount = 3`,
refuting the unconditional `trackedCount ≤ maxCount`. -/
theorem tracked_count_counterexample :
    ¬ (((runCycle
          ⟨"tok", "key", "https://controlplane.tailscale.com", "fra1", "ubuntu-22-04",
           "tailscale-exit", 1, 3, 300, "INFO"⟩
          ⟨⟨[("1", "active"), ("2", "active"), ("3", "active"), ("4", "active")],
            fun _ => some "203.0.113.7", fun _ => true,
            fun _ => ⟨.resp 200 "ok", .resp 200 "100.64.0.5", .resp 404 "nf"⟩,
            fun _ => false, ⟨2025, 6, 7, 8, 9, 10, 0, true⟩⟩,
           fun _ => true, fun _ => none⟩
          [{ sampleNode with droplet_id := "1" }, { sampleNode with droplet_id := "2" },
           { sampleNode with droplet_id := "3" }, { sampleNode with droplet_id := "4" }]).nodes.length : Int) ≤ 3) := by
  decide

/-- C10: when fetching the provider inventory fails while the cached
listing is empty or absent, `get_droplets` returns the empty list
instead of raising; a cycle whose inventory is that empty listing then
removes every tracked instance during the health check and attempts no
destroy at all. -/
theorem fetch_failure_untracks_all (e : String) (now ttl : Int) (st : DropletsCache)
    (force : Bool) (cfg : Config) (env : CycleEnv) (nodes : List ExitNodeInfo)
    (hcache : st.cache = none ∨ st.cache = some [])
    (hinv : env.check.inventory = (getDroplets (.error e) now ttl st force).1) :
    (getDroplets (.error e) now ttl st force).1 = [] ∧
    checkExistingNodes env.check nodes = ([], []) ∧
    (runCycle cfg env nodes).destroysAttempted = [] := by
  have hempty : (getDroplets (.error e) now ttl st force).1 = [] := by
    rcases hcache with h | h <;>
      · unfold getDroplets
        split <;> simp [h]
  have hproc : ∀ n, processNode env.check n = none := by
    intro n
    unfold processNode
    rw [hinv, hempty]
    rfl
  have hchk : checkExistingNodes env.check nodes = ([], []) := by
    unfold checkExistingNodes
    have : nodes.filterMap (processNode env.check) = [] := by
      rw [List.filterMap_eq_nil_iff]
      intro n _
      exact hproc n
    simp [this]
  refine ⟨hempty, hchk, ?_⟩
  unfold runCycle
  rw [hchk]
  simp only [cleanupFailedNodes, List.filter_nil]
  split_ifs <;> rfl

/-- Concrete inputs for the C10 witness: empty cache, failing fetch,
one tracked node, an otherwise healthy-looking environment. -/
def sampleEmptyCycleEnv : CycleEnv :=
  ⟨⟨[], fun _ => some "203.0.113.7", fun _ => true,
    fun _ => ⟨.resp 200 "ok", .resp 200 "100.64.0.5", .resp 404 "nf"⟩,
    fun _ => false, ⟨2025, 6, 7, 8, 9, 10, 0, true⟩⟩,
   fun _ => true, fun _ => none⟩

theorem fetch_failure_untracks_all_witness :
    ((⟨none, none⟩ : DropletsCache).cache = none ∨
     (⟨none, none⟩ : DropletsCache).cache = some []) ∧
    (sampleEmptyCycleEnv.check.inventory =
      (getDroplets (.error "boom") 0 60 ⟨none, none⟩ false).1) ∧
    ((getDroplets (.error "boom") 0 60 ⟨none, none⟩ false).1 = [] ∧
     checkExistingNodes sampleEmptyCycleEnv.check [sampleNode] = ([], []) ∧
     (runCycle scenarioDConfig sampleEmptyCycleEnv [sampleNode]).destroysAttempted = []) :=
  ⟨Or.inl rfl, rfl,
   fetch_failure_untracks_all "boom" 0 60 ⟨none, none⟩ false scenarioDConfig
     sampleEmptyCycleEnv [sampleNode] (Or.inl rfl) rfl⟩

/-! ## Cloud-init script generation (`CloudInitScriptGenerator`)

`generate_tailscale_script` substitutes the two secrets and the inner
setup-script body into the wrapper template with `str.format`.
`str.format` is embedded for the fragment the templates use: literal
text, doubled braces as escaped literal braces, and plain-named
replacement fields (the repository templates use no conversion or
format-spec suffixes).  A lone closing brace or an unterminated field
is a `ValueError`; a field name outside the provided mapping is a
`KeyError`; both are `none`/`formatError` here. -/

/-- The opening brace character (written by codepoint). -/
def lbrace : Char := Char.ofNat 123

/-- The closing brace character (written by codepoint). -/
def rbrace : Char := Char.ofNat 125

inductive FmtTok where
  | lit (c : Char)
  | field (name : String)
deriving DecidableEq, Repr

mutual

/-- The scanner of `str.format`. -/
def parseFmt : List Char → Option (List FmtTok)
  | [] => some []
  | c :: rest =>
    if c = lbrace then
      match rest with
      | [] => none
      | c2 :: rest2 =>
        if c2 = lbrace then (parseFmt rest2).map (fun ts => .lit lbrace :: ts)
        else parseField (c2 :: rest2) []
    else if c = rbrace then
      match rest with
      | [] => none
      | c2 :: rest2 =>
        if c2 = rbrace then (parseFmt rest2).map (fun ts => .lit rbrace :: ts)
        else none
    else (parseFmt rest).map (fun ts => .lit c :: ts)
termination_by l => l.length

/-- Scanning the inside of a replacement field up to its closing
brace. -/
def parseField : List Char → List Char → Option (List FmtTok)
  | [], _ => none
  | c :: rest, acc =>
    if c = rbrace then (parseFmt rest).map (fun ts => .field (String.mk acc.reverse) :: ts)
    else if c = lbrace then none
    else parseField rest (c :: acc)
termination_by l _ => l.length

end

/-- Substitute the field values into a scanned template. -/
def renderFmt (sub : List (String × String)) : List FmtTok → Option (List Char)
  | [] => some []
  | .lit c :: ts => (renderFmt sub ts).map (fun s => c :: s)
  | .field name :: ts =>
    match sub.lookup name with
    | none => none
    | some v =>
      match renderFmt sub ts with
      | none => none
      | some s => some (v.data ++ s)

/-- `template.format(**sub)`. -/
def pyFormat (template : String) (sub : List (String × String)) : Option String :=
  match parseFmt template.data with
  | none => none
  | some ts => (renderFmt sub ts).map String.mk

inductive GenError where
  | templateMissing (which : String)
  | formatError
deriving DecidableEq, Repr

/-- `CloudInitScriptGenerator.__init__` + `generate_tailscale_script`:
a missing setup script or wrapper raises `FileNotFoundError` (the
spec's `TemplateMissing`), checked in that order; otherwise the wrapper
is formatted with the auth key, the login server, and the setup script
body. -/
def generateTailscaleScript (setupScript wrapper : Option String)
    (ts_authkey login_server : String) : Except GenError String :=
  match setupScript with
  | none => .error (.templateMissing "setup script")
  | some setup =>
    match wrapper with
    | none => .error (.templateMissing "cloud-init wrapper")
    | some w =>
      match pyFormat w [("ts_authkey", ts_authkey), ("login_server", login_server),
                        ("setup_script_content", setup)] with
      | some out => .ok out
      | none => .error .formatError

/-- No brace characters occur in the fragment. -/
def braceFree (l : List Char) : Prop := ∀ c ∈ l, c ≠ lbrace ∧ c ≠ rbrace

instance (l : List Char) : Decidable (braceFree l) := by
  unfold braceFree; infer_instance

lemma parseFmt_cons_lit (c : Char) (rest : List Char) (h1 : c ≠ lbrace) (h2 : c ≠ rbrace) :
    parseFmt (c :: rest) = (parseFmt rest).map (fun ts => FmtTok.lit c :: ts) := by
  conv_lhs => rw [parseFmt.eq_def]
  simp only [if_neg h1, if_neg h2]

lemma parseField_cons (c : Char) (rest acc : List Char) (h1 : c ≠ lbrace) (h2 : c ≠ rbrace) :
    parseField (c :: rest) acc = parseField rest (c :: acc) := by
  simp only [parseField]
  rw [if_neg h2, if_neg h1]

lemma parseField_close (rest acc : List Char) :
    parseField (rbrace :: rest) acc =
      (parseFmt rest).map (fun ts => FmtTok.field (String.mk acc.reverse) :: ts) := by
  simp only [parseField]
  simp

lemma parseFmt_open_field (c : Char) (rest : List Char) (h : c ≠ lbrace) :
    parseFmt (lbrace :: c :: rest) = parseField (c :: rest) [] := by
  simp only [parseFmt]
  simp only [if_true]
  rw [if_neg h]

lemma parseFmt_braceFree_append (pre rest : List Char) (h : braceFree pre) :
    parseFmt (pre ++ rest) = (parseFmt rest).map (fun ts => pre.map FmtTok.lit ++ ts) := by
  induction pre with
  | nil =>
    simp only [List.nil_append, List.map_nil]
    cases h2 : parseFmt rest <;> simp [h2]
  | cons c cs ih =>
    have hc := h c (by simp)
    have hcs : braceFree cs := fun x hx => h x (by simp [hx])
    rw [List.cons_append, parseFmt_cons_lit c _ hc.1 hc.2, ih hcs]
    cases h2 : parseFmt rest <;> simp [h2]

lemma parseFmt_braceFree (l : List Char) (h : braceFree l) :
    parseFmt l = some (l.map FmtTok.lit) := by
  have h0 := parseFmt_braceFree_append l [] h
  simpa [parseFmt] using h0

lemma parseField_spec (name : List Char) (rest acc : List Char) (h : braceFree name) :
    parseField (name ++ rbrace :: rest) acc =
      (parseFmt rest).map (fun ts => FmtTok.field (String.mk (acc.reverse ++ name)) :: ts) := by
  induction name generalizing acc with
  | nil =>
    rw [List.nil_append, parseField_close]
    simp
  | cons c cs ih =>
    have hc := h c (by simp)
    have hcs : braceFree cs := fun x hx => h x (by simp [hx])
    rw [List.cons_append, parseField_cons c _ _ hc.1 hc.2, ih (c :: acc) hcs]
    simp

lemma parseFmt_field (name : List Char) (rest : List Char) (h : braceFree name) :
    parseFmt (lbrace :: (name ++ rbrace :: rest)) =
      (parseFmt rest).map (fun ts => FmtTok.field (String.mk name) :: ts) := by
  cases name with
  | nil =>
    rw [List.nil_append, parseFmt_open_field rbrace rest (by decide), parseField_close]
    simp
  | cons c cs =>
    have hc := h c (by simp)
    rw [List.cons_append, parseFmt_open_field c _ hc.1, ← List.cons_append,
        parseField_spec (c :: cs) rest [] h]
    simp

lemma renderFmt_lits_append (sub : List (String × String)) (pre : List Char)
    (ts : List FmtTok) :
    renderFmt sub (pre.map FmtTok.lit ++ ts) = (renderFmt sub ts).map (fun s => pre ++ s) := by
  induction pre with
  | nil =>
    simp only [List.map_nil, List.nil_append]
    cases h2 : renderFmt sub ts <;> simp [h2]
  | cons c cs ih =>
    simp only [List.map_cons, List.cons_append, renderFmt, ih]
    cases h2 : renderFmt sub ts <;> simp [ih, h2]

lemma renderFmt_field (sub : List (String × String)) (name : String)
    (ts : List FmtTok) (v : String) (hv : sub.lookup name = some v) :
    renderFmt sub (.field name :: ts) = (renderFmt sub ts).map (fun s => v.data ++ s) := by
  simp only [renderFmt, hv]
  cases h2 : renderFmt sub ts <;> simp [h2]

lemma renderFmt_lits (sub : List (String × String)) (l : List Char) :
    renderFmt sub (l.map FmtTok.lit) = some l := by
  have h0 := renderFmt_lits_append sub l []
  simpa [renderFmt] using h0

/-- The shape of the repository wrapper template: brace-free literal
text interleaving the three placeholders in their order of appearance
(`shells/cloud-init-wrapper.bash` and the test fixture both have this
shape). -/
def wrapperShape (pre mid1 mid2 post : List Char) : String :=
  String.mk (pre ++ lbrace :: ("ts_authkey".data ++ rbrace ::
    (mid1 ++ lbrace :: ("login_server".data ++ rbrace ::
      (mid2 ++ lbrace :: ("setup_script_content".data ++ rbrace :: post))))))

/-- C9: a missing template file yields the `TemplateMissing` error
(setup script checked first); on a wrapper interleaving brace-free text
with the three placeholders, formatting substitutes every placeholder
and splices both secrets and the setup-script body in verbatim — the
output is exactly the literal text with the values in place — and
when the values are themselves brace-free the output contains no brace
at all, hence no unresolved placeholder. -/
theorem cloud_init_generation (setup key url : String) (w : Option String)
    (pre mid1 mid2 post : List Char)
    (hpre : braceFree pre) (hm1 : braceFree mid1) (hm2 : braceFree mid2)
    (hpost : braceFree post) :
    generateTailscaleScript none w key url = .error (.templateMissing "setup script") ∧
    generateTailscaleScript (some setup) none key url =
      .error (.templateMissing "cloud-init wrapper") ∧
    generateTailscaleScript (some setup) (some (wrapperShape pre mid1 mid2 post)) key url =
      .ok (String.mk (pre ++ key.data ++ mid1 ++ url.data ++ mid2 ++ setup.data ++ post)) ∧
    (braceFree key.data → braceFree url.data → braceFree setup.data →
      braceFree (pre ++ key.data ++ mid1 ++ url.data ++ mid2 ++ setup.data ++ post)) := by
  refine ⟨rfl, rfl, ?_, ?_⟩
  · have hparse : parseFmt (wrapperShape pre mid1 mid2 post).data =
        some (pre.map .lit ++ .field "ts_authkey" ::
          (mid1.map .lit ++ .field "login_server" ::
            (mid2.map .lit ++ .field "setup_script_content" :: post.map .lit))) := by
      show parseFmt (pre ++ lbrace :: ("ts_authkey".data ++ rbrace ::
        (mid1 ++ lbrace :: ("login_server".data ++ rbrace ::
          (mid2 ++ lbrace :: ("setup_script_content".data ++ rbrace :: post)))))) = _
      rw [parseFmt_braceFree_append pre _ hpre,
          parseFmt_field "ts_authkey".data _ (by decide),
          parseFmt_braceFree_append mid1 _ hm1,
          parseFmt_field "login_server".data _ (by decide),
          parseFmt_braceFree_append mid2 _ hm2,
          parseFmt_field "setup_script_content".data _ (by decide),
          parseFmt_braceFree post hpost]
      simp
    have hsub1 : (([("ts_authkey", key), ("login_server", url),
        ("setup_script_content", setup)] : List (String × String)).lookup "ts_authkey") =
        some key := rfl
    have hsub2 : (([("ts_authkey", key), ("login_server", url),
        ("setup_script_content", setup)] : List (String × String)).lookup "login_server") =
        some url := rfl
    have hsub3 : (([("ts_authkey", key), ("login_server", url),
        ("setup_script_content", setup)] : List (String × String)).lookup
          "setup_script_content") = some setup := rfl
    have hrender : renderFmt [("ts_authkey", key), ("login_server", url),
        ("setup_script_content", setup)]
        (pre.map .lit ++ .field "ts_authkey" ::
          (mid1.map .lit ++ .field "login_server" ::
            (mid2.map .lit ++ .field "setup_script_content" :: post.map .lit))) =
        some (pre ++ key.data ++ mid1 ++ url.data ++ mid2 ++ setup.data ++ post) := by
      rw [renderFmt_lits_append, renderFmt_field _ _ _ key hsub1,
          renderFmt_lits_append, renderFmt_field _ _ _ url hsub2,
          renderFmt_lits_append, renderFmt_field _ _ _ setup hsub3,
          renderFmt_lits]
      simp
    simp [generateTailscaleScript, pyFormat, hparse, hrender]
  · intro hk hu hs
    intro c hc
    simp only [List.mem_append] at hc
    rcases hc with ((((((hc | hc) | hc) | hc) | hc) | hc) | hc)
    exacts [hpre c hc, hk c hc, hm1 c hc, hu c hc, hm2 c hc, hs c hc, hpost c hc]

/-- Concrete instantiation of the generation theorem (mirrors
`test_placeholder_replacement`). -/
theorem cloud_init_generation_witness :
    braceFree "A".data ∧ braceFree "B".data ∧ braceFree "C".data ∧ braceFree "D".data ∧
    (generateTailscaleScript none (some "w") "K" "U" =
      .error (.templateMissing "setup script") ∧
     generateTailscaleScript (some "S") none "K" "U" =
      .error (.templateMissing "cloud-init wrapper") ∧
     generateTailscaleScript (some "S")
        (some (wrapperShape "A".data "B".data "C".data "D".data)) "K" "U" =
      .ok (String.mk ("A".data ++ "K".data ++ "B".data ++ "U".data ++
                      "C".data ++ "S".data ++ "D".data)) ∧
     (braceFree "K".data → braceFree "U".data → braceFree "S".data →
      braceFree ("A".data ++ "K".data ++ "B".data ++ "U".data ++
                 "C".data ++ "S".data ++ "D".data))) :=
  ⟨by decide, by decide, by decide, by decide,
   by
    have h := cloud_init_generation "S" "K" "U" (some "w")
      "A".data "B".data "C".data "D".data (by decide) (by decide) (by decide) (by decide)
    exact ⟨h.1, h.2.1, h.2.2.1, h.2.2.2⟩⟩

end AutoDeploy
